import Mathlib

/-!
Verification development for the turn-resolution core of `vortex_rs`
(`src/main.rs`).  The repository snapshot contains only `main.rs`; the
submodules it references (`player.rs`, `map.rs`, `rect.rs`,
`visibility_system.rs`, `melee_combat_system.rs`, `damage_system.rs`,
`spawner.rs`) are absent, so the parts of the behaviour that live in those
files are modelled from the specification, as indicated in the doc comments
of the corresponding definitions.  Everything about the turn state machine,
the pipeline ordering, the post-tick sweep and the startup sequence is
embedded directly from `main.rs`.
-/

namespace Vortex

/-- The `RunState` enum from `src/main.rs` (lines 31–37). -/
inductive RunState where
  | AwaitingInput
  | PreRun
  | PlayerTurn
  | MonsterTurn
deriving DecidableEq, Repr

/-- Observable events of one engine tick, in the order `main.rs` produces
them.  `commit` is the `self.ecs.maintain()` call that applies deferred
structural mutations; `writeRunState` is the write of the new run state into
the `RunState` resource; `deadSweep` is `DamageSystem::delete_the_dead`;
`inputHandled` records that `player_input` was consulted and what it
returned. -/
inductive Event where
  | sysVisibility
  | sysMonsterAI
  | sysMapIndexing
  | sysMeleeCombat
  | sysDamage
  | commit
  | writeRunState (s : RunState)
  | deadSweep
  | inputHandled (s : RunState)
deriving DecidableEq, Repr

/-- The trace of `State::run_systems` (`src/main.rs` lines 44–56): the five
systems run in source order via `run_now`, then `ecs.maintain()` applies the
deferred structural mutations. -/
def run_systems : List Event :=
  [Event.sysVisibility, Event.sysMonsterAI, Event.sysMapIndexing,
   Event.sysMeleeCombat, Event.sysDamage, Event.commit]

/-- The body of the `match new_run_state` in `State::tick` (`src/main.rs`
lines 68–84): given the run state read from the resource and the value the
external input handler would return in `AwaitingInput`, produce the new run
state together with the trace of that match arm. -/
def tick_match (s : RunState) (input : RunState) : RunState × List Event :=
  match s with
  | RunState.PreRun => (RunState.AwaitingInput, run_systems)
  | RunState.AwaitingInput => (input, [Event.inputHandled input])
  | RunState.PlayerTurn => (RunState.MonsterTurn, run_systems)
  | RunState.MonsterTurn => (RunState.AwaitingInput, run_systems)

/-- The function `State::tick` (`src/main.rs` lines 60–110), projected onto the run state
and the event trace: the match on the current run state, then the write of
the new run state into the resource (lines 86–89), then
`DamageSystem::delete_the_dead` (line 91).  Rendering (lines 93–109) reads
the world but performs no state-machine work and is omitted. -/
def tick (s : RunState) (input : RunState) : RunState × List Event :=
  let m := tick_match s input
  (m.1, m.2 ++ [Event.writeRunState m.1, Event.deadSweep])

/-- Whether an event is one of the five pipeline systems or the commit, i.e.
any work done by `run_systems`. -/
def Event.isPipelineWork : Event → Bool
  | Event.sysVisibility => true
  | Event.sysMonsterAI => true
  | Event.sysMapIndexing => true
  | Event.sysMeleeCombat => true
  | Event.sysDamage => true
  | Event.commit => true
  | _ => false

/-- Number of pipeline passes in a trace, counted by commit points (each
`run_systems` call ends in exactly one `ecs.maintain()`). -/
def pipelineRuns (t : List Event) : Nat :=
  t.count Event.commit

/-- Modelled from the spec: the input collaborator of §6 supplies one
discrete action per call, or none (`src/player.rs` is absent from the
snapshot).  We only distinguish "some actionable command" from "no
actionable input". -/
inductive InputAction where
  | command
  | noInput
deriving DecidableEq, Repr

/-- Modelled from the spec: `player_input` (`src/player.rs` is absent).
Per §4.1, on a movement/action command it transitions to `PlayerTurn`; on no
actionable input it re-enters `AwaitingInput`. -/
def player_input : InputAction → RunState
  | InputAction.command => RunState.PlayerTurn
  | InputAction.noInput => RunState.AwaitingInput

/-- The `CombatStats` component (fields per §3; the component definition in
`src/components.rs` is absent from the snapshot). -/
structure CombatStats where
  hp : Int
  defense : Int
  power : Int
deriving DecidableEq, Repr

/-- A combat log line naming attacker, target and amount, per §4.5
("append a human-readable log line naming attacker, target, and amount"). -/
structure LogEntry where
  attacker : String
  target : String
  amount : Int
deriving DecidableEq, Repr

/-- Modelled from the spec: the damage formula of the Melee Combat system
(`src/melee_combat_system.rs` is absent).  §4.5: "compute damage as
`max(0, attacker.power − target.defense)`". -/
def melee_damage (attacker target : CombatStats) : Int :=
  max 0 (attacker.power - target.defense)

/-- Modelled from the spec: resolution of one `WantsToMelee` intent by the
Melee Combat system (`src/melee_combat_system.rs` is absent).  §4.5: append
the computed amount to the target's `SufferDamage` accumulator, append a log
line naming attacker, target and amount, and remove the consumed intent.
Returns the target's accumulator, the log, and whether the intent was
removed. -/
def resolve_melee (attackerName targetName : String)
    (attacker target : CombatStats)
    (acc : List Int) (log : List LogEntry) :
    List Int × List LogEntry × Bool :=
  let dmg := melee_damage attacker target
  (acc ++ [dmg], log ++ [⟨attackerName, targetName, dmg⟩], true)

/-- The per-tile visibility bitsets of the `Map` resource (§3: map holds
`revealed`/`visible` bitsets of fixed length `width*height`).  The map type
itself lives in `src/map.rs`, absent from the snapshot. -/
structure MapVis where
  visible_tiles : List Bool
  revealed_tiles : List Bool
deriving DecidableEq, Repr

/-- Modelled from the spec: the effect of one Visibility pass on the map's
bitsets (`src/visibility_system.rs` is absent).  §4.2: overwrite the global
`visible_tiles` bitset with the freshly computed player field of view, and
union those tiles into `revealed_tiles` (sticky).  `computed` is the fresh
field-of-view bitset produced by the line-of-sight algorithm (an external
collaborator). -/
def visibility_pass (computed : List Bool) (m : MapVis) : MapVis :=
  { visible_tiles := computed,
    revealed_tiles := List.zipWith (fun r c => r || c) m.revealed_tiles computed }

/-- A sequence of visibility passes across ticks, applied oldest first. -/
def visibility_passes (cs : List (List Bool)) (m : MapVis) : MapVis :=
  cs.foldl (fun acc c => visibility_pass c acc) m

/-- An entity as seen by the death sweep: an identifier, whether it carries
the `Player` marker, and its combat stats (§3's required-component table;
entities without `CombatStats` are irrelevant to the sweep). -/
structure Entity where
  id : Nat
  isPlayer : Bool
  stats : CombatStats
deriving DecidableEq, Repr

/-- Modelled from the spec: `DamageSystem::delete_the_dead`
(`src/damage_system.rs` is absent).  §4.6 step 2: scan all entities with
`CombatStats`; for each with hp ≤ 0, if it is the Player, surface a distinct
"player died" condition (the player entity is not removed); otherwise remove
the entity entirely.  Returns the surviving entities and whether the
player-died condition was raised. -/
def delete_the_dead (world : List Entity) : List Entity × Bool :=
  (world.filter (fun e => e.isPlayer || decide (0 < e.stats.hp)),
   world.any (fun e => e.isPlayer && decide (e.stats.hp ≤ 0)))

/-- Modelled from the spec: a dungeon room as the core consumes it.  §6: the
map generator exposes room centers; the room rectangle type (`src/rect.rs`)
is absent from the snapshot, so a room is represented by its center. -/
structure Room where
  center : Int × Int
deriving DecidableEq, Repr

/-- A spawn request issued during startup. -/
inductive Spawn where
  | player (x y : Int)
  | monster (x y : Int)
deriving DecidableEq, Repr

def Spawn.isPlayer : Spawn → Bool
  | Spawn.player _ _ => true
  | _ => false

def Spawn.isMonster : Spawn → Bool
  | Spawn.monster _ _ => true
  | _ => false

/-- The resources and entities set up by `main` (`src/main.rs` lines
150–193), projected onto what the claims inspect: the spawn requests in the
order they are issued, the cached player-position `Point` resource, the
initial `RunState` resource, and the initial game log. -/
structure GameInit where
  spawns : List Spawn
  player_point : Int × Int
  initial_run_state : RunState
  log_entries : List String
deriving DecidableEq, Repr

/-- The function `main` (`src/main.rs` lines 150–193), given the room list produced by
`Map::new_map_rooms_and_corridors`: reads `rooms[0].center()` (line 172;
a panic if the room list were empty, so the result is `none` there), spawns
one monster at the center of every room skipping the first (lines 177–180),
spawns the player at `(player_x, player_y)` (line 183), and inserts the
`Point` (line 187), `RunState::PreRun` (line 188) and greeting-log (lines
189–191) resources. -/
def main_setup (rooms : List Room) : Option GameInit :=
  match rooms with
  | [] => none
  | r0 :: rest =>
      some
        { spawns :=
            rest.map (fun r => Spawn.monster r.center.1 r.center.2) ++
              [Spawn.player r0.center.1 r0.center.2],
          player_point := r0.center,
          initial_run_state := RunState.PreRun,
          log_entries := ["Welcome to vortex!"] }

/-- The spawn requests issued by `main` for a given room list (empty when
the room list is empty, where `main` would panic at `rooms[0]`). -/
def setup_spawns (rooms : List Room) : List Spawn :=
  ((main_setup rooms).map GameInit.spawns).getD []

/-! ## Helper lemmas -/

lemma zipWith_or_getD (r c : List Bool) (h : c.length = r.length) (i : Nat) :
    (List.zipWith (fun a b => a || b) r c).getD i false
      = (r.getD i false || c.getD i false) := by
  induction r generalizing c i with
  | nil =>
    cases c with
    | nil => simp
    | cons b c => simp at h
  | cons a r ih =>
    cases c with
    | nil => simp at h
    | cons b c =>
      cases i with
      | zero => simp
      | succ j =>
        simp only [List.zipWith_cons_cons, List.getD_cons_succ]
        exact ih c (by simpa using h) j

lemma visibility_pass_revealed_length (c : List Bool) (m : MapVis)
    (h : c.length = m.revealed_tiles.length) :
    (visibility_pass c m).revealed_tiles.length = m.revealed_tiles.length := by
  simp [visibility_pass, h]

lemma visibility_pass_revealed_mono (c : List Bool) (m : MapVis) (i : Nat)
    (h : c.length = m.revealed_tiles.length)
    (hrev : m.revealed_tiles.getD i false = true) :
    (visibility_pass c m).revealed_tiles.getD i false = true := by
  simp only [visibility_pass]
  rw [zipWith_or_getD _ _ h, hrev, Bool.true_or]

end Vortex

namespace Vortex

/-! ## Claims -/

/-- C1: the turn state machine makes exactly these transitions in `tick`:
the starting state inserted by `main` is `PreRun`; a tick in `PreRun` runs
the full pipeline and transitions to `AwaitingInput`; a tick in `PlayerTurn`
runs the full pipeline and transitions unconditionally to `MonsterTurn`; a
tick in `MonsterTurn` runs the full pipeline and transitions to
`AwaitingInput`; a tick in `AwaitingInput` transitions to whatever state the
input handler returns. -/
theorem C1_turn_state_machine (input : RunState) (r0 : Room) (rest : List Room) :
    (main_setup (r0 :: rest)).map GameInit.initial_run_state = some RunState.PreRun
    ∧ tick RunState.PreRun input =
        (RunState.AwaitingInput,
          run_systems ++ [Event.writeRunState RunState.AwaitingInput, Event.deadSweep])
    ∧ tick RunState.PlayerTurn input =
        (RunState.MonsterTurn,
          run_systems ++ [Event.writeRunState RunState.MonsterTurn, Event.deadSweep])
    ∧ tick RunState.MonsterTurn input =
        (RunState.AwaitingInput,
          run_systems ++ [Event.writeRunState RunState.AwaitingInput, Event.deadSweep])
    ∧ (tick RunState.AwaitingInput input).1 = input := by
  refine ⟨rfl, rfl, rfl, rfl, rfl⟩

/-- C2: every run of the system pipeline executes, in order, Visibility,
Monster AI, Map Indexing, Melee Combat, Damage, followed by a single
structural commit point at the end of the pass; in each pipeline-running
state the dead-entity sweep comes after the commit and before the tick
ends (hence before the next state's tick). -/
theorem C2_pipeline_order (input : RunState) :
    run_systems =
      [Event.sysVisibility, Event.sysMonsterAI, Event.sysMapIndexing,
       Event.sysMeleeCombat, Event.sysDamage, Event.commit]
    ∧ run_systems.count Event.commit = 1
    ∧ (tick RunState.PreRun input).2 =
        run_systems ++ [Event.writeRunState RunState.AwaitingInput, Event.deadSweep]
    ∧ (tick RunState.PlayerTurn input).2 =
        run_systems ++ [Event.writeRunState RunState.MonsterTurn, Event.deadSweep]
    ∧ (tick RunState.MonsterTurn input).2 =
        run_systems ++ [Event.writeRunState RunState.AwaitingInput, Event.deadSweep] := by
  refine ⟨rfl, by decide, rfl, rfl, rfl⟩

/-- C3: in every run state, including `AwaitingInput`, the dead-entity sweep
executes exactly once per tick, as the final event, after the match arm's
trace (which contains the pipeline's structural commit when it ran) and
after the new run state has been written. -/
theorem C3_sweep_every_tick (s input : RunState) :
    (tick s input).2 =
      (tick_match s input).2 ++ [Event.writeRunState (tick s input).1, Event.deadSweep]
    ∧ Event.deadSweep ∉ (tick_match s input).2
    ∧ (tick s input).2.count Event.deadSweep = 1 := by
  cases s <;>
    simp [tick, tick_match, run_systems, List.count_append, List.count_cons]

/-- C4: for every attacker/target pair resolved by the Melee Combat system,
the damage appended to the target's `SufferDamage` accumulator equals
`max(0, attacker.power − target.defense)`; whenever `target.defense ≥
attacker.power` the appended damage is exactly 0; and a log entry naming
attacker, target and amount is appended for the hit in every case. -/
theorem C4_melee_damage (an tn : String) (att tgt : CombatStats)
    (acc : List Int) (log : List LogEntry) :
    (resolve_melee an tn att tgt acc log).1
        = acc ++ [max 0 (att.power - tgt.defense)]
    ∧ (att.power ≤ tgt.defense →
        (resolve_melee an tn att tgt acc log).1 = acc ++ [0])
    ∧ (resolve_melee an tn att tgt acc log).2.1
        = log ++ [LogEntry.mk an tn (max 0 (att.power - tgt.defense))] := by
  refine ⟨rfl, ?_, rfl⟩
  intro h
  have hz : max 0 (att.power - tgt.defense) = 0 := by omega
  simp [resolve_melee, melee_damage, hz]

/-- Witness for C4 at a concrete zero-damage hit: power 3 against
defense 5. -/
theorem C4_melee_damage_witness :
    (3 : Int) ≤ 5
    ∧ (resolve_melee "m" "p" ⟨10, 0, 3⟩ ⟨8, 5, 1⟩ [] []).1 = [] ++ [(0 : Int)] :=
  ⟨by decide, (C4_melee_damage "m" "p" ⟨10, 0, 3⟩ ⟨8, 5, 1⟩ [] []).2.1 (by decide)⟩

/-- C5: across any sequence of visibility passes (one per tick that runs the
pipeline), a tile once marked in `revealed_tiles` stays marked — the bitset
is monotonic non-decreasing — while `visible_tiles` after a pass equals
exactly the freshly computed field of view, with no carry-over from the
previous pass. -/
theorem C5_visibility_bitsets (cs : List (List Bool)) (m : MapVis) (i : Nat)
    (hlen : ∀ c ∈ cs, c.length = m.revealed_tiles.length)
    (hrev : m.revealed_tiles.getD i false = true) :
    (visibility_passes cs m).revealed_tiles.getD i false = true
    ∧ ∀ c : List Bool, (visibility_pass c m).visible_tiles = c := by
  refine ⟨?_, fun c => rfl⟩
  induction cs generalizing m with
  | nil => simpa [visibility_passes] using hrev
  | cons c cs ih =>
    have hc : c.length = m.revealed_tiles.length := hlen c (by simp)
    have hlen' : ∀ d ∈ cs, d.length = (visibility_pass c m).revealed_tiles.length := by
      intro d hd
      rw [visibility_pass_revealed_length c m hc]
      exact hlen d (by simp [hd])
    have hrev' : (visibility_pass c m).revealed_tiles.getD i false = true :=
      visibility_pass_revealed_mono c m i hc hrev
    simpa [visibility_passes] using ih (visibility_pass c m) hlen' hrev'

/-- Witness for C5 at a concrete two-pass run over a two-tile map whose
first tile is already revealed. -/
theorem C5_visibility_bitsets_witness :
    (∀ c ∈ [[false, true], [false, false]], List.length c = 2)
    ∧ (visibility_passes [[false, true], [false, false]]
        ⟨[false, false], [true, false]⟩).revealed_tiles.getD 0 false = true :=
  ⟨by decide,
   (C5_visibility_bitsets [[false, true], [false, false]]
      ⟨[false, false], [true, false]⟩ 0 (by decide) (by decide)).1⟩

/-- C6: the death sweep removes every non-player entity whose hp ≤ 0 (it is
absent from the surviving world), never removes a player entity, and raises
the distinct player-died condition when a player has hp ≤ 0. -/
theorem C6_death_sweep (world : List Entity) (e : Entity) (hmem : e ∈ world) :
    (e.isPlayer = false → e.stats.hp ≤ 0 → e ∉ (delete_the_dead world).1)
    ∧ (e.isPlayer = true → e ∈ (delete_the_dead world).1)
    ∧ (e.isPlayer = true → e.stats.hp ≤ 0 → (delete_the_dead world).2 = true) := by
  refine ⟨?_, ?_, ?_⟩
  · intro hp hhp hin
    have := (List.mem_filter.mp hin).2
    simp [hp] at this
    omega
  · intro hp
    exact List.mem_filter.mpr ⟨hmem, by simp [hp]⟩
  · intro hp hhp
    simp only [delete_the_dead, List.any_eq_true]
    exact ⟨e, hmem, by simp [hp, hhp]⟩

/-- Witness for C6 at a concrete world holding a dead player and a dead
monster: the monster is removed, the player survives, the condition is
raised. -/
theorem C6_death_sweep_witness :
    (Entity.mk 1 false ⟨0, 1, 1⟩ ∈
      [Entity.mk 0 true ⟨-1, 2, 5⟩, Entity.mk 1 false ⟨0, 1, 1⟩])
    ∧ Entity.mk 1 false ⟨0, 1, 1⟩ ∉
        (delete_the_dead
          [Entity.mk 0 true ⟨-1, 2, 5⟩, Entity.mk 1 false ⟨0, 1, 1⟩]).1 :=
  ⟨by decide,
   (C6_death_sweep [Entity.mk 0 true ⟨-1, 2, 5⟩, Entity.mk 1 false ⟨0, 1, 1⟩]
      (Entity.mk 1 false ⟨0, 1, 1⟩) (by decide)).1 rfl (by decide)⟩

/-- C7: `AwaitingInput` is the single run state whose tick performs no
system-pipeline work: its trace contains no pipeline event and no commit,
and with no actionable input the state after the tick is again
`AwaitingInput`; every other state runs the pipeline exactly once. -/
theorem C7_awaiting_input_idle (input : RunState) :
    (∀ e ∈ (tick RunState.AwaitingInput input).2, e.isPipelineWork = false)
    ∧ pipelineRuns (tick RunState.AwaitingInput input).2 = 0
    ∧ (tick RunState.AwaitingInput (player_input InputAction.noInput)).1
        = RunState.AwaitingInput
    ∧ (∀ s : RunState, s ≠ RunState.AwaitingInput → pipelineRuns (tick s input).2 = 1) := by
  refine ⟨?_, ?_, rfl, ?_⟩
  · intro e he
    simp [tick, tick_match] at he
    rcases he with h | h | h <;> simp [h, Event.isPipelineWork]
  · simp [tick, tick_match, pipelineRuns, List.count_cons]
  · intro s hs
    cases s with
    | AwaitingInput => exact absurd rfl hs
    | PreRun => simp [tick, tick_match, pipelineRuns, run_systems,
        List.count_append, List.count_cons]
    | PlayerTurn => simp [tick, tick_match, pipelineRuns, run_systems,
        List.count_append, List.count_cons]
    | MonsterTurn => simp [tick, tick_match, pipelineRuns, run_systems,
        List.count_append, List.count_cons]

/-- Witness for C7 at concrete inputs: the first conjunct at the sweep
event of the idle trace, and the last conjunct at `PreRun`. -/
theorem C7_awaiting_input_idle_witness :
    (Event.deadSweep ∈ (tick RunState.AwaitingInput RunState.PlayerTurn).2
      → Event.isPipelineWork Event.deadSweep = false)
    ∧ (RunState.PreRun ≠ RunState.AwaitingInput
      → pipelineRuns (tick RunState.PreRun RunState.PlayerTurn).2 = 1) :=
  ⟨fun _ => (C7_awaiting_input_idle RunState.PlayerTurn).1 Event.deadSweep (by decide),
   fun h => (C7_awaiting_input_idle RunState.PlayerTurn).2.2.2 RunState.PreRun h⟩

lemma setup_spawns_cons (r0 : Room) (rest : List Room) :
    setup_spawns (r0 :: rest)
      = rest.map (fun r => Spawn.monster r.center.1 r.center.2)
          ++ [Spawn.player r0.center.1 r0.center.2] := rfl

lemma setup_spawns_filter_player (r0 : Room) (rest : List Room) :
    (setup_spawns (r0 :: rest)).filter Spawn.isPlayer
      = [Spawn.player r0.center.1 r0.center.2] := by
  have hplfilter : (rest.map (fun r => Spawn.monster r.center.1 r.center.2)).filter
      Spawn.isPlayer = [] :=
    List.filter_eq_nil_iff.mpr (by
      intro a ha
      rcases List.mem_map.mp ha with ⟨r, _, hr⟩
      simp [← hr, Spawn.isPlayer])
  rw [setup_spawns_cons, List.filter_append, hplfilter]
  simp [Spawn.isPlayer]

lemma setup_spawns_filter_monster (r0 : Room) (rest : List Room) :
    (setup_spawns (r0 :: rest)).filter Spawn.isMonster
      = rest.map (fun r => Spawn.monster r.center.1 r.center.2) := by
  have hmonfilter : (rest.map (fun r => Spawn.monster r.center.1 r.center.2)).filter
      Spawn.isMonster = rest.map (fun r => Spawn.monster r.center.1 r.center.2) :=
    List.filter_eq_self.mpr (by
      intro a ha
      rcases List.mem_map.mp ha with ⟨r, _, hr⟩
      simp [← hr, Spawn.isMonster])
  rw [setup_spawns_cons, List.filter_append, hmonfilter]
  simp [Spawn.isMonster]

/-- C8: for every non-empty room list, startup spawns the player exactly
once, at the center of room 0; the monsters spawned are exactly one at the
center of each room other than room 0, in room order — hence exactly
`len(rooms) − 1` monsters, and every monster spawn is derived from a room
of index ≥ 1, never from the player's room 0. -/
theorem C8_spawn_layout (r0 : Room) (rest : List Room) :
    (setup_spawns (r0 :: rest)).filter Spawn.isPlayer
        = [Spawn.player r0.center.1 r0.center.2]
    ∧ (setup_spawns (r0 :: rest)).filter Spawn.isMonster
        = rest.map (fun r => Spawn.monster r.center.1 r.center.2)
    ∧ ((setup_spawns (r0 :: rest)).filter Spawn.isMonster).length
        = (r0 :: rest).length - 1 := by
  refine ⟨setup_spawns_filter_player r0 rest, setup_spawns_filter_monster r0 rest, ?_⟩
  rw [setup_spawns_filter_monster]
  simp

/-- C9: no single tick runs the system pipeline more than once: `tick`
invokes `run_systems` exactly once in `PreRun`, `PlayerTurn` and
`MonsterTurn` and zero times in `AwaitingInput`, counted both by commit
points and by Visibility runs, so the two passes of a full
player-then-monster turn occur in two distinct ticks. -/
theorem C9_one_pipeline_run_per_tick (s input : RunState) :
    pipelineRuns (tick s input).2
        = (if s = RunState.AwaitingInput then 0 else 1)
    ∧ (tick s input).2.count Event.sysVisibility
        = (if s = RunState.AwaitingInput then 0 else 1) := by
  cases s <;>
    simp [tick, tick_match, pipelineRuns, run_systems,
      List.count_append, List.count_cons]

/-- C10: at startup the cached player-position `Point` resource is
initialized to exactly the center of room 0, the same coordinates at which
the single player entity is spawned, so the cache and the player's
`Position` component agree before the first tick. -/
theorem C10_player_point_cache (r0 : Room) (rest : List Room) :
    (main_setup (r0 :: rest)).map GameInit.player_point = some r0.center
    ∧ (setup_spawns (r0 :: rest)).filter Spawn.isPlayer
        = [Spawn.player r0.center.1 r0.center.2] := by
  exact ⟨rfl, setup_spawns_filter_player r0 rest⟩

end Vortex
